import Mathlib

/-!
Verification of the analytics core of the tradelite-pro backend:
sentiment scoring (`app/services/sentiment_analysis_service.py`),
anomaly detection (`app/services/anomaly_detection_service.py`),
the feedback generator (`app/services/ai_service.py`) and the
synthetic market-path generator (`app/api/simulations.py`).

Text is modelled as `List Char`, machine floats as exact rationals
(`ℚ`) except where a square root is required (the anomaly detector),
which is modelled over `ℝ`.  Randomness (`random.random()` /
`random.uniform`) is modelled by explicit draw streams passed as
arguments.  Python `round(x, 2)` is round-half-to-even on the scaled
value, modelled exactly on `ℚ`.
-/

/-- Text is a list of characters. -/
abbrev Str := List Char

/-- Lower-casing, as Python `str.lower` restricted to the ASCII texts used here. -/
def lowerStr (s : Str) : Str := s.map Char.toLower

/-- A word character in the sense of the regex `\b` boundary: `[A-Za-z0-9_]`. -/
def isWordChar (c : Char) : Bool := c.isAlpha || c.isDigit || c == '_'

/-- Whether an optional preceding character is a word character. -/
def wordCharOpt : Option Char → Bool
  | none => false
  | some c => isWordChar c

/-- If `kw` is a prefix of `l`, the remainder of `l` after it. -/
def dropPrefixCh : Str → Str → Option Str
  | [], l => some l
  | _ :: _, [] => none
  | k :: ks, c :: cs => if k = c then dropPrefixCh ks cs else none

/-- `re.search(r'\b kw \b', ·)` succeeds exactly at a position whose previous
character (if any) is a non-word character and where `kw` is followed by a
non-word character or the end of the text.  This tests a match starting at the
current position, `prev` being the character just before it. -/
def wwMatchHere (kw : Str) (prev : Option Char) (l : Str) : Bool :=
  !wordCharOpt prev &&
    (match dropPrefixCh kw l with
     | some [] => true
     | some (d :: _) => !isWordChar d
     | none => false)

/-- Whether the whole-word regex `\b kw \b` matches anywhere in the text. -/
def wwSearchFrom (kw : Str) (prev : Option Char) : Str → Bool
  | [] => false
  | c :: rest => wwMatchHere kw prev (c :: rest) || wwSearchFrom kw (some c) rest

/-- `re.search(r'\b' + kw + r'\b', text)` as a Boolean. -/
def hasWholeWord (kw text : Str) : Bool := wwSearchFrom kw none text

/-- Number of positions at which the whole-word regex `\b kw \b` matches. -/
def wwCountFrom (kw : Str) (prev : Option Char) : Str → ℕ
  | [] => 0
  | c :: rest =>
      (if wwMatchHere kw prev (c :: rest) then 1 else 0) + wwCountFrom kw (some c) rest

/-- Number of whole-word occurrences of `kw` in `text`. -/
def wwCount (kw text : Str) : ℕ := wwCountFrom kw none text

/-- The positive financial lexicon of `analyze_sentiment`, verbatim. -/
def positive_keywords : List Str :=
  ["bullish".toList, "uptrend".toList, "growth".toList, "profit".toList,
   "gain".toList, "outperform".toList, "buy".toList, "strong".toList,
   "positive".toList, "up".toList, "rise".toList, "rising".toList,
   "rally".toList, "opportunity".toList, "optimistic".toList,
   "confident".toList, "exceed".toList, "beat".toList, "momentum".toList,
   "recovery".toList, "upgrade".toList, "success".toList, "improve".toList]

/-- The negative financial lexicon of `analyze_sentiment`, verbatim. -/
def negative_keywords : List Str :=
  ["bearish".toList, "downtrend".toList, "decline".toList, "loss".toList,
   "risk".toList, "underperform".toList, "sell".toList, "weak".toList,
   "negative".toList, "down".toList, "fall".toList, "falling".toList,
   "drop".toList, "threat".toList, "pessimistic".toList, "concerned".toList,
   "miss".toList, "below".toList, "slowdown".toList, "recession".toList,
   "downgrade".toList, "failure".toList, "worsen".toList]

/-- `sum(1 for keyword in kws if re.search(r'\b'+keyword+r'\b', textLower))`. -/
def countLexicon (kws : List Str) (textLower : Str) : ℕ :=
  (kws.map fun kw => if hasWholeWord kw textLower then 1 else 0).sum

/-- Decimal rendering of a natural number. -/
def natStr (n : ℕ) : Str := (toString n).toList

/-- The response record of the sentiment scorer. -/
structure SentimentAnalysisResponse where
  sentiment : Str
  score : ℚ
  explanation : Str
  deriving DecidableEq

/-- `analyze_sentiment` from `app/services/sentiment_analysis_service.py`. -/
def analyze_sentiment (text : Str) : SentimentAnalysisResponse :=
  let text_lower := lowerStr text
  let positive_count := countLexicon positive_keywords text_lower
  let negative_count := countLexicon negative_keywords text_lower
  let total_count := positive_count + negative_count
  if total_count = 0 then
    { sentiment := "neutral".toList
      score := 0
      explanation := "No clear sentiment indicators found in the text.".toList }
  else
    let sentiment_score : ℚ := ((positive_count : ℚ) - (negative_count : ℚ)) / (total_count : ℚ)
    if 1/4 < sentiment_score then
      { sentiment := "positive".toList
        score := sentiment_score
        explanation := "The text contains more positive financial indicators (".toList
          ++ natStr positive_count ++ ") than negative ones (".toList
          ++ natStr negative_count ++ ").".toList }
    else if sentiment_score < -(1/4) then
      { sentiment := "negative".toList
        score := sentiment_score
        explanation := "The text contains more negative financial indicators (".toList
          ++ natStr negative_count ++ ") than positive ones (".toList
          ++ natStr positive_count ++ ").".toList }
    else
      { sentiment := "neutral".toList
        score := sentiment_score
        explanation := "The text contains a balanced mix of positive (".toList
          ++ natStr positive_count ++ ") and negative (".toList
          ++ natStr negative_count ++ ") financial indicators.".toList }

/-- The response record of the anomaly detector. -/
structure AnomalyDetectionResponse where
  anomalies : List ℕ
  scores : List ℝ
  threshold : ℝ

/-- `np.mean` of a list. -/
noncomputable def listMean (l : List ℝ) : ℝ := l.sum / l.length

/-- `np.std` squared: the population variance, mean of squared deviations. -/
noncomputable def listVar (l : List ℝ) : ℝ :=
  ((l.map fun x => (x - listMean l) ^ 2).sum) / l.length

/-- `np.std` of a list: the population standard deviation. -/
noncomputable def listStd (l : List ℝ) : ℝ := Real.sqrt (listVar l)

/-- The per-index body of the rolling loop of `detect_anomalies`: 0 for an
index with an incomplete trailing window or a zero-deviation window, the
absolute z-score against the `window_size` points strictly before `i`
otherwise. -/
noncomputable def rollingScore (data : List ℝ) (window_size i : ℕ) : ℝ :=
  if i < window_size then 0
  else
    let window := (data.drop (i - window_size)).take window_size
    if listStd window = 0 then 0
    else |data.getD i 0 - listMean window| / listStd window

open Classical in
/-- `detect_anomalies` from `app/services/anomaly_detection_service.py`. -/
noncomputable def detect_anomalies (data : List ℝ) (window_size : ℕ) : AnomalyDetectionResponse :=
  if data.length < window_size then
    { anomalies := [], scores := List.replicate data.length 0, threshold := 3 }
  else
    { anomalies := (List.range data.length).filter fun i =>
        decide (3 < rollingScore data window_size i)
      scores := (List.range data.length).map fun i => rollingScore data window_size i
      threshold := 3 }

/-- Round half to even to an integer, the rounding Python `round` uses. -/
def roundHalfEven (x : ℚ) : ℤ :=
  if Int.fract x < 1/2 then ⌊x⌋
  else if 1/2 < Int.fract x then ⌊x⌋ + 1
  else if ⌊x⌋ % 2 = 0 then ⌊x⌋ else ⌊x⌋ + 1

/-- Python `round(x, 2)` on an exact rational value. -/
def round2 (x : ℚ) : ℚ := (roundHalfEven (x * 100) : ℚ) / 100

/-- One row of the generated series, `SimulationDataPoint` of
`app/schemas/schemas.py`; `sma20`/`ema10` are absent until enough
history exists. -/
structure SimulationDataPoint where
  day : ℕ
  price : ℚ
  sma20 : Option ℚ
  ema10 : Option ℚ
  deriving DecidableEq

instance : Inhabited SimulationDataPoint := ⟨⟨0, 0, none, none⟩⟩

/-- `SimulationResult` of `app/schemas/schemas.py`; `id` and `created_at`
come from external sources (`uuid`, wall clock) and are passed in. -/
structure SimulationResult where
  id : Str
  user_id : Str
  asset : Str
  strategy : Str
  timeframe : ℕ
  initial_capital : ℚ
  final_capital : ℚ
  roi : ℚ
  data : List SimulationDataPoint
  created_at : Str

/-- The asset-keyed `(start_price, volatility)` table of `generate_mock_data`. -/
def assetParams (asset : Str) : ℚ × ℚ :=
  if asset = "BTC".toList then (30000, 3/100)
  else if asset = "ETH".toList then (2000, 4/100)
  else (100, 2/100)

/-- One price update of the random walk:
`max(current_price + current_price * volatility * (random.random() - 0.5), 0.1)`,
with `ui` the uniform draw of that iteration. -/
def stepPrice (vol prev ui : ℚ) : ℚ := max (prev + prev * vol * (ui - 1/2)) (1/10)

/-- The unrounded `current_price` after `n` iterations of the loop, the price
draws being the stream `u`. -/
def curPrice (start vol : ℚ) (u : ℕ → ℚ) : ℕ → ℚ
  | 0 => start
  | n + 1 => stepPrice vol (curPrice start vol u n) (u n)

/-- The price loop of `generate_mock_data`: after `n` iterations, the pair of
the running (unrounded) `current_price` and the accumulated `data` list.  Each
iteration stores the rounded price and, once 19 (resp. 9) prior points exist,
the `sma20` (resp. `ema10`) value computed from the stored prices
`data[i-19:i]` (resp. `data[i-9:i]`) divided by 20 (resp. 10). -/
def genData (start vol : ℚ) (u : ℕ → ℚ) : ℕ → ℚ × List SimulationDataPoint
  | 0 => (start, [])
  | n + 1 =>
    let prev := genData start vol u n
    let newPrice := stepPrice vol prev.1 (u n)
    let point : SimulationDataPoint :=
      { day := n + 1
        price := round2 newPrice
        sma20 :=
          if 19 ≤ n then
            some (round2 ((((List.range' (n - 19) 19).map fun j =>
              (prev.2.getD j default).price).sum) / 20))
          else none
        ema10 :=
          if 9 ≤ n then
            some (round2 ((((List.range' (n - 9) 9).map fun j =>
              (prev.2.getD j default).price).sum) / 10))
          else none }
    (newPrice, prev.2 ++ [point])

/-- `random.uniform a b` expressed through its underlying unit draw `x`. -/
def uniformDraw (a b x : ℚ) : ℚ := a + (b - a) * x

/-- The `strategy_performance` dict of `generate_mock_data`: one uniform draw
per known strategy, the draw stream `v` giving each call's unit draw. -/
def strategy_performance (v : Str → ℚ) : List (Str × ℚ) :=
  [("sma_crossover".toList, uniformDraw (-1/10) (3/10) (v "sma_crossover".toList)),
   ("ema_crossover".toList, uniformDraw (-1/20) (1/4) (v "ema_crossover".toList)),
   ("macd".toList, uniformDraw (-3/20) (7/20) (v "macd".toList)),
   ("rsi".toList, uniformDraw (-1/5) (2/5) (v "rsi".toList)),
   ("bollinger".toList, uniformDraw (-1/10) (3/10) (v "bollinger".toList))]

/-- `strategy_performance.get(strategy, 0.1)`. -/
def performanceOf (v : Str → ℚ) (strategy : Str) : ℚ :=
  ((strategy_performance v).lookup strategy).getD (1/10)

/-- The bounded range `(lo, hi)` of each known strategy's uniform draw, read
off the `random.uniform` arguments of the `strategy_performance` dict. -/
def strategyRanges : List (Str × ℚ × ℚ) :=
  [("sma_crossover".toList, -1/10, 3/10),
   ("ema_crossover".toList, -1/20, 1/4),
   ("macd".toList, -3/20, 7/20),
   ("rsi".toList, -1/5, 2/5),
   ("bollinger".toList, -1/10, 3/10)]

/-- A degenerate unit-draw assignment used to instantiate theorems. -/
def vZero : Str → ℚ := fun _ => 0

/-- `generate_mock_data` from `app/api/simulations.py`.  `u` is the stream of
`random.random()` draws of the price walk, `v` the unit draws behind the
`random.uniform` calls of the performance table; `simId`/`createdAt` stand for
the generated uuid and timestamp. -/
def generate_mock_data (simId createdAt asset strategy : Str) (timeframe : ℕ)
    (initial_capital : ℚ) (u : ℕ → ℚ) (v : Str → ℚ) : SimulationResult :=
  let sp := assetParams asset
  let data := (genData sp.1 sp.2 u timeframe).2
  let performance := performanceOf v strategy
  let final_capital := initial_capital * (1 + performance)
  let roi := performance * 100
  { id := simId
    user_id := "mock-user-id".toList
    asset := asset
    strategy := strategy
    timeframe := timeframe
    initial_capital := initial_capital
    final_capital := round2 final_capital
    roi := round2 roi
    data := data
    created_at := createdAt }

/-- The stored (rounded) price of the point at 0-based index `i`. -/
def recordedPrice (start vol : ℚ) (u : ℕ → ℚ) (i : ℕ) : ℚ :=
  round2 (curPrice start vol u (i + 1))

/-- Closed form of the point at 0-based index `i` of the generated series. -/
def pointAt (start vol : ℚ) (u : ℕ → ℚ) (i : ℕ) : SimulationDataPoint :=
  { day := i + 1
    price := recordedPrice start vol u i
    sma20 :=
      if 19 ≤ i then
        some (round2 ((((List.range' (i - 19) 19).map
          (recordedPrice start vol u)).sum) / 20))
      else none
    ema10 :=
      if 9 ≤ i then
        some (round2 ((((List.range' (i - 9) 9).map
          (recordedPrice start vol u)).sum) / 10))
      else none }

/-- Python `content.split("\n\n")`. -/
def splitTwoNl : Str → List Str
  | [] => [[]]
  | '\n' :: '\n' :: rest => [] :: splitTwoNl rest
  | c :: rest =>
    match splitTwoNl rest with
    | [] => [[c]]
    | s :: ss => (c :: s) :: ss

/-- Python `section.split("\n")`. -/
def splitNl : Str → List Str
  | [] => [[]]
  | '\n' :: rest => [] :: splitNl rest
  | c :: rest =>
    match splitNl rest with
    | [] => [[c]]
    | s :: ss => (c :: s) :: ss

/-- Python `pat in s` on strings: substring containment. -/
def containsSub (pat : Str) : Str → Bool
  | [] => pat.isEmpty
  | c :: rest => pat.isPrefixOf (c :: rest) || containsSub pat rest

/-- Python `s.strip(chars)`: remove characters of the set from both ends. -/
def stripBoth (chars : Str) (s : Str) : Str :=
  ((s.dropWhile (chars.contains ·)).reverse.dropWhile (chars.contains ·)).reverse

/-- The whitespace characters Python `str.strip()` removes. -/
def pySpace : Str := [' ', '\t', '\n', '\r', '\x0b', '\x0c']

/-- `[p.strip("- ") for p in section.split("\n")[1:] if p.strip()]`: the lines
of a section after its first, the blank ones discarded, each with `-` and
space characters stripped from both ends. -/
def sectionLines (sec : Str) : List Str :=
  (((splitNl sec).drop 1).filter fun p => !(stripBoth pySpace p).isEmpty).map
    (stripBoth ['-', ' '])

/-- The generic key points substituted when parsing collects none. -/
def default_key_points : List Str :=
  ["Understanding market trends".toList,
   "Risk management is essential".toList,
   "Past performance is not indicative of future results".toList]

/-- The generic suggestions substituted when parsing collects none. -/
def default_suggestions : List Str :=
  ["Consider backtesting with different parameters".toList,
   "Combine with other indicators for confirmation".toList]

/-- The feedback record, `EducationalFeedbackResponse` of `app/schemas/schemas.py`. -/
structure EducationalFeedbackResponse where
  feedback : Str
  key_points : List Str
  improvement_suggestions : List Str
  deriving DecidableEq

/-- The body of the section loop of the provider-response parsing: the
accumulated `(key_points, improvement_suggestions)` extended by the item
lines of the section when it matches. -/
def collectStep (acc : List Str × List Str) (sec : Str) : List Str × List Str :=
  if containsSub "key point".toList (lowerStr sec) then
    (acc.1 ++ sectionLines sec, acc.2)
  else if containsSub "improvement".toList (lowerStr sec)
      || containsSub "suggestion".toList (lowerStr sec) then
    (acc.1, acc.2 ++ sectionLines sec)
  else acc

/-- The provider-response parsing shared by `_get_deepseek_feedback` and
`_get_openai_feedback`: split on blank lines, take the first section as the
narrative, collect item lines from sections mentioning "key point" and
(otherwise) "improvement"/"suggestion", substitute defaults for empty
collections, truncate to 5 and 3. -/
def parseProviderContent (content : Str) : EducationalFeedbackResponse :=
  let sections := splitTwoNl content
  let feedback := sections.headD []
  let collected := sections.foldl collectStep ([], [])
  let key_points := if collected.1.isEmpty then default_key_points else collected.1
  let improvement_suggestions := if collected.2.isEmpty then default_suggestions else collected.2
  { feedback := feedback
    key_points := key_points.take 5
    improvement_suggestions := improvement_suggestions.take 3 }

/-- The readable-name table applied to the strategy key before interpolation. -/
def strategyDisplayName (strategy : Str) : Str :=
  if strategy = "sma_crossover".toList then "Simple Moving Average Crossover".toList
  else if strategy = "ema_crossover".toList then "Exponential Moving Average Crossover".toList
  else if strategy = "macd".toList then "Moving Average Convergence Divergence (MACD)".toList
  else if strategy = "rsi".toList then "Relative Strength Index (RSI)".toList
  else if strategy = "bollinger".toList then "Bollinger Bands".toList
  else strategy

/-- Rendering of a rational in a narrative; integral values print the way
Python prints ints, the only case the theorems below evaluate. -/
def ratStr (q : ℚ) : Str :=
  if q.den = 1 then (toString q.num).toList
  else (toString q.num).toList ++ "/".toList ++ natStr q.den

/-- The performance dict passed to the feedback generator: the two keys the
generator reads, each possibly absent. -/
structure PerfDict where
  roi : Option ℚ
  final_capital : Option ℚ

/-- `performance.get('roi', 'unknown')` as interpolated into the generic template. -/
def roiDisplay (p : PerfDict) : Str :=
  match p.roi with
  | some q => ratStr q
  | none => "unknown".toList

/-- One entry of the strategy-keyed template bank. -/
structure TemplateEntry where
  feedback : Str
  key_points : List Str
  improvement_suggestions : List Str

/-- The `sma_crossover` template of `_get_template_feedback`, verbatim. -/
def smaTemplate (asset : Str) (timeframe : ℕ) : TemplateEntry :=
  { feedback := "This simulation demonstrates a Simple Moving Average (SMA) Crossover strategy applied to ".toList
      ++ asset ++ " over ".toList ++ natStr timeframe
      ++ " days. The strategy involves tracking two moving averages - typically a short-term and long-term SMA - and generating buy signals when the short-term SMA crosses above the long-term SMA, and sell signals when it crosses below. This strategy aims to identify trend changes and can be effective in trending markets, but may generate false signals in sideways or highly volatile markets.".toList
    key_points :=
      ["SMA Crossover strategies work best in trending markets".toList,
       "The choice of SMA periods significantly impacts performance".toList,
       "This strategy typically lags behind price movements due to the nature of moving averages".toList,
       "False signals are common during sideways market conditions".toList]
    improvement_suggestions :=
      ["Consider adding a confirmation indicator like volume or RSI".toList,
       "Test different SMA period combinations to optimize for your asset".toList,
       "Implement a stop-loss strategy to manage downside risk".toList] }

/-- The `ema_crossover` template of `_get_template_feedback`, verbatim. -/
def emaTemplate (asset : Str) (timeframe : ℕ) : TemplateEntry :=
  { feedback := "This simulation demonstrates an Exponential Moving Average (EMA) Crossover strategy applied to ".toList
      ++ asset ++ " over ".toList ++ natStr timeframe
      ++ " days. EMA crossover strategies are similar to SMA crossovers but give more weight to recent price data, making them more responsive to new information. The strategy generates buy signals when a shorter-term EMA crosses above a longer-term EMA, and sell signals when it crosses below. EMA crossovers can respond faster to trend changes than SMA crossovers, but this responsiveness can also lead to more false signals in volatile markets.".toList
    key_points :=
      ["EMA Crossover strategies respond faster to price changes than SMA strategies".toList,
       "The strategy is more sensitive to recent price movements".toList,
       "While more responsive, EMA crossovers can generate more false signals in volatile markets".toList,
       "The choice of EMA periods significantly impacts performance".toList]
    improvement_suggestions :=
      ["Consider using a price filter to reduce false signals".toList,
       "Test different EMA period combinations to find optimal settings".toList,
       "Combine with volatility indicators to avoid trading during choppy markets".toList] }

/-- The `macd` template of `_get_template_feedback`, verbatim. -/
def macdTemplate (asset : Str) (timeframe : ℕ) : TemplateEntry :=
  { feedback := "This simulation demonstrates a Moving Average Convergence Divergence (MACD) strategy applied to ".toList
      ++ asset ++ " over ".toList ++ natStr timeframe
      ++ " days. MACD is a trend-following momentum indicator that shows the relationship between two moving averages of an asset\x27s price. The MACD line is calculated by subtracting the 26-period EMA from the 12-period EMA. A 9-period EMA of the MACD, called the \x27signal line\x27, is then plotted on top of the MACD line. Buy signals typically occur when the MACD line crosses above the signal line, and sell signals when it crosses below. MACD can also show divergence with price, potentially indicating trend reversals.".toList
    key_points :=
      ["MACD combines trend following and momentum in one indicator".toList,
       "Signal line crossovers are the primary trading signals".toList,
       "Divergence between MACD and price can indicate potential reversals".toList,
       "MACD histogram shows the difference between MACD and signal line".toList]
    improvement_suggestions :=
      ["Use MACD in conjunction with price action analysis".toList,
       "Consider the overall trend direction before taking MACD signals".toList,
       "Look for MACD divergence to identify potential trend exhaustion".toList] }

/-- The `rsi` template of `_get_template_feedback`, verbatim. -/
def rsiTemplate (asset : Str) (timeframe : ℕ) : TemplateEntry :=
  { feedback := "This simulation demonstrates a Relative Strength Index (RSI) strategy applied to ".toList
      ++ asset ++ " over ".toList ++ natStr timeframe
      ++ " days. RSI is a momentum oscillator that measures the speed and change of price movements on a scale from 0 to 100. Traditional interpretation considers RSI values over 70 as overbought and under 30 as oversold, potentially signaling reversal points. RSI strategies can be effective for identifying potential reversal points in the market, but can lead to premature entries during strong trends. The indicator works best in ranging markets and should be used with caution during strong trending periods.".toList
    key_points :=
      ["RSI measures the magnitude of recent price changes to evaluate overbought or oversold conditions".toList,
       "Traditional overbought level is 70 and oversold level is 30".toList,
       "RSI can remain in overbought/oversold territory during strong trends".toList,
       "RSI divergence with price can signal potential trend reversals".toList]
    improvement_suggestions :=
      ["Adjust the RSI overbought/oversold levels based on the asset\x27s volatility".toList,
       "Combine RSI with trend indicators to avoid counter-trend trades".toList,
       "Look for RSI divergence to confirm potential reversal signals".toList] }

/-- The `bollinger` template of `_get_template_feedback`, verbatim. -/
def bollingerTemplate (asset : Str) (timeframe : ℕ) : TemplateEntry :=
  { feedback := "This simulation demonstrates a Bollinger Bands strategy applied to ".toList
      ++ asset ++ " over ".toList ++ natStr timeframe
      ++ " days. Bollinger Bands consist of a middle band (typically a 20-period SMA) with an upper and lower band set at standard deviations away from the middle band. The bands expand and contract based on volatility. Common strategies include buying when the price touches the lower band and selling when it touches the upper band (mean reversion), or entering trades when the price breaks out of the bands after a period of low volatility (volatility expansion). Bollinger Bands are versatile and can be used in both trending and ranging markets with appropriate adjustments.".toList
    key_points :=
      ["Bollinger Bands adapt to market volatility by widening and narrowing".toList,
       "Price touching the bands alone is not necessarily a signal to trade".toList,
       "Band width indicates market volatility - narrow bands often precede significant moves".toList,
       "The middle band (SMA) can act as support/resistance in trending markets".toList]
    improvement_suggestions :=
      ["Combine with volume indicators to confirm breakouts".toList,
       "Use additional indicators to determine if the market is trending or ranging".toList,
       "Consider using Bollinger Band %B or Bandwidth for additional insights".toList] }

/-- The default template used for a strategy absent from the bank, verbatim. -/
def genericTemplate (strategy_name asset : Str) (timeframe : ℕ) (performance : PerfDict) : TemplateEntry :=
  { feedback := "This simulation demonstrates a ".toList ++ strategy_name
      ++ " strategy applied to ".toList ++ asset ++ " over ".toList ++ natStr timeframe
      ++ " days. The performance shows an ROI of ".toList ++ roiDisplay performance
      ++ "%. Trading strategies can perform differently depending on market conditions, timeframes, and specific assets. It\x27s important to understand the underlying principles of the strategy and how various market factors can influence its performance.".toList
    key_points :=
      ["Different strategies perform better in different market conditions".toList,
       "Risk management is essential for long-term success".toList,
       "Past performance is not indicative of future results".toList,
       "Understanding the underlying principles of a strategy is more valuable than blindly following signals".toList]
    improvement_suggestions :=
      ["Backtest the strategy across different market conditions".toList,
       "Consider combining multiple indicators for confirmation".toList,
       "Implement proper position sizing and risk management rules".toList] }

/-- The performance sentence appended to the template narrative, keyed on
`roi = performance.get('roi', 0)`. -/
def performanceSentence (roi : ℚ) : Str :=
  if 15 < roi then
    "The strategy performed well with an ROI of ".toList ++ ratStr roi
      ++ "%, but remember that past performance doesn\x27t guarantee future results. Market conditions can change rapidly.".toList
  else if 0 < roi then
    "The strategy showed a positive ROI of ".toList ++ ratStr roi
      ++ "%, which is a moderate result. Consider how different market conditions might affect performance.".toList
  else
    "The strategy resulted in a negative ROI of ".toList ++ ratStr roi
      ++ "%. This provides a valuable learning opportunity to understand what factors contributed to the underperformance.".toList

/-- `_get_template_feedback` from `app/services/ai_service.py`. -/
def template_feedback (asset strategy : Str) (timeframe : ℕ) (performance : PerfDict) :
    EducationalFeedbackResponse :=
  let strategy_name := strategyDisplayName strategy
  let template :=
    if strategy = "sma_crossover".toList then smaTemplate asset timeframe
    else if strategy = "ema_crossover".toList then emaTemplate asset timeframe
    else if strategy = "macd".toList then macdTemplate asset timeframe
    else if strategy = "rsi".toList then rsiTemplate asset timeframe
    else if strategy = "bollinger".toList then bollingerTemplate asset timeframe
    else genericTemplate strategy_name asset timeframe performance
  let roi := performance.roi.getD 0
  { feedback := template.feedback ++ " ".toList ++ performanceSentence roi
    key_points := template.key_points
    improvement_suggestions := template.improvement_suggestions }

/-- `get_educational_feedback` from `app/services/ai_service.py`.  The two
provider tiers are modelled by a configuration flag and the outcome of the
network call: a tier is used when it is configured and its call returns
content; a failing call is the swallowed exception, dropping to the next
tier; the template tier is the terminal fallback. -/
def get_educational_feedback (dsConfigured oaConfigured : Bool)
    (dsResult oaResult : Except Unit Str) (asset strategy : Str) (timeframe : ℕ)
    (performance : PerfDict) : EducationalFeedbackResponse :=
  let tier1 : Option EducationalFeedbackResponse :=
    if dsConfigured then
      match dsResult with
      | .ok content => some (parseProviderContent content)
      | .error _ => none
    else none
  match tier1 with
  | some r => r
  | none =>
    let tier2 : Option EducationalFeedbackResponse :=
      if oaConfigured then
        match oaResult with
        | .ok content => some (parseProviderContent content)
        | .error _ => none
      else none
    match tier2 with
    | some r => r
    | none => template_feedback asset strategy timeframe performance

/-- The narrative as the specification's words describe it: the first
blank-line-separated section matching neither the key-point nor the
suggestion lexicon. -/
def firstNonMatchingSection (content : Str) : Option Str :=
  (splitTwoNl content).find? fun sec =>
    !containsSub "key point".toList (lowerStr sec)
    && !containsSub "improvement".toList (lowerStr sec)
    && !containsSub "suggestion".toList (lowerStr sec)

/-- Whether a section is treated as a key-points section by the parser. -/
def keySectionMatch (sec : Str) : Bool :=
  containsSub "key point".toList (lowerStr sec)

/-- Whether a section is treated as a suggestions section by the parser: it is
not a key-points section and mentions "improvement" or "suggestion". -/
def suggestionSectionMatch (sec : Str) : Bool :=
  !keySectionMatch sec
    && (containsSub "improvement".toList (lowerStr sec)
        || containsSub "suggestion".toList (lowerStr sec))

/-- The strategy-identifying phrase each template narrative carries. -/
def strategyDescriptor (strategy : Str) : Str :=
  if strategy = "sma_crossover".toList then "Simple Moving Average (SMA) Crossover".toList
  else if strategy = "ema_crossover".toList then "Exponential Moving Average (EMA) Crossover".toList
  else if strategy = "macd".toList then "Moving Average Convergence Divergence (MACD)".toList
  else if strategy = "rsi".toList then "Relative Strength Index (RSI)".toList
  else if strategy = "bollinger".toList then "Bollinger Bands".toList
  else strategy

/-- A concrete draw stream for the price walk: the second draw is 1, all
others are exactly centred, so only the second step moves the price. -/
def uCE : ℕ → ℚ := fun n => if n = 1 then 1 else 1/2

/-- A concrete unit-draw assignment for the performance table. -/
def vCE : Str → ℚ := fun _ => 1/2

/-- The series generated for a default asset over 21 days under `uCE`. -/
def seriesCE : List SimulationDataPoint :=
  (generate_mock_data [] [] "AAPL".toList "macd".toList 21 10000 uCE vCE).data

example : countLexicon positive_keywords (lowerStr "The stock is bullish and rising, strong buy signal".toList) = 4 := by decide
example : countLexicon negative_keywords (lowerStr "The stock is bullish and rising, strong buy signal".toList) = 0 := by decide
example : countLexicon positive_keywords (lowerStr "buy buy".toList) = 1 := by decide
example : wwCount "buy".toList (lowerStr "buy buy".toList) = 2 := by decide

lemma wwSearchFrom_eq_count (kw : Str) (prev : Option Char) (l : Str) :
    wwSearchFrom kw prev l = decide (0 < wwCountFrom kw prev l) := by
  induction l generalizing prev with
  | nil => simp [wwSearchFrom, wwCountFrom]
  | cons c rest ih =>
    by_cases h : wwMatchHere kw prev (c :: rest) = true
    · simp [wwSearchFrom, wwCountFrom, h]
    · simp only [Bool.not_eq_true] at h
      simp [wwSearchFrom, wwCountFrom, h, ih]

lemma hasWholeWord_eq_count (kw text : Str) :
    hasWholeWord kw text = decide (0 < wwCount kw text) :=
  wwSearchFrom_eq_count kw none text

lemma countLexicon_eq_countP (kws : List Str) (t : Str) :
    countLexicon kws t = kws.countP fun kw => decide (0 < wwCount kw t) := by
  induction kws with
  | nil => simp [countLexicon]
  | cons kw rest ih =>
    simp only [countLexicon, List.map_cons, List.sum_cons, List.countP_cons] at ih ⊢
    rw [hasWholeWord_eq_count, ih, Nat.add_comm]

/-- C1, counterexample: the term `buy` occurs twice as a whole word in
`"buy buy"`, yet `positive_count` is 1, so a term occurring `k ≥ 2` times
does not contribute all `k` occurrences. -/
theorem positive_count_multiplicity_counterexample :
    "buy".toList ∈ positive_keywords
    ∧ wwCount "buy".toList (lowerStr "buy buy".toList) = 2
    ∧ countLexicon positive_keywords (lowerStr "buy buy".toList) = 1
    ∧ ¬ 2 ≤ countLexicon positive_keywords (lowerStr "buy buy".toList) := by
  refine ⟨by decide, by decide, by decide, by decide⟩

/-- C1, amended: `positive_count` and `negative_count` are presence counts:
each lexicon term with at least one whole-word occurrence in the lowercased
text contributes exactly 1, however many times it occurs. -/
theorem lexicon_counts_are_presence_counts (text : Str) :
    countLexicon positive_keywords (lowerStr text)
      = positive_keywords.countP (fun kw => decide (0 < wwCount kw (lowerStr text)))
    ∧ countLexicon negative_keywords (lowerStr text)
      = negative_keywords.countP (fun kw => decide (0 < wwCount kw (lowerStr text))) :=
  ⟨countLexicon_eq_countP _ _, countLexicon_eq_countP _ _⟩

/-- C6: with zero total keyword matches `analyze_sentiment` returns score 0,
category neutral and the no-indicators explanation; otherwise the score is
`(positive_count - negative_count) / (positive_count + negative_count)`,
which lies in `[-1, 1]`; and the category obeys the 0.25 thresholds. -/
theorem analyze_sentiment_score_category_spec (text : Str) :
    (countLexicon positive_keywords (lowerStr text)
        + countLexicon negative_keywords (lowerStr text) = 0 →
      (analyze_sentiment text).score = 0
      ∧ (analyze_sentiment text).sentiment = "neutral".toList
      ∧ (analyze_sentiment text).explanation
          = "No clear sentiment indicators found in the text.".toList)
    ∧ (0 < countLexicon positive_keywords (lowerStr text)
          + countLexicon negative_keywords (lowerStr text) →
      (analyze_sentiment text).score
        = ((countLexicon positive_keywords (lowerStr text) : ℚ)
            - (countLexicon negative_keywords (lowerStr text) : ℚ))
          / ((countLexicon positive_keywords (lowerStr text) : ℚ)
            + (countLexicon negative_keywords (lowerStr text) : ℚ))
      ∧ -1 ≤ (analyze_sentiment text).score
      ∧ (analyze_sentiment text).score ≤ 1)
    ∧ (1/4 < (analyze_sentiment text).score →
        (analyze_sentiment text).sentiment = "positive".toList)
    ∧ ((analyze_sentiment text).score < -(1/4) →
        (analyze_sentiment text).sentiment = "negative".toList)
    ∧ (-(1/4) ≤ (analyze_sentiment text).score →
        (analyze_sentiment text).score ≤ 1/4 →
        (analyze_sentiment text).sentiment = "neutral".toList) := by
  have hcast : ((countLexicon positive_keywords (lowerStr text)
      + countLexicon negative_keywords (lowerStr text) : ℕ) : ℚ)
      = (countLexicon positive_keywords (lowerStr text) : ℚ)
        + (countLexicon negative_keywords (lowerStr text) : ℚ) := by
    push_cast
    ring
  by_cases h : countLexicon positive_keywords (lowerStr text)
      + countLexicon negative_keywords (lowerStr text) = 0
  · obtain ⟨hp, hn⟩ := Nat.add_eq_zero.mp h
    refine ⟨fun _ => ?_, fun hc => absurd h (Nat.pos_iff_ne_zero.mp hc), ?_, ?_, ?_⟩
    · simp [analyze_sentiment, hp, hn]
    · intro hc
      norm_num [analyze_sentiment, hp, hn] at hc
    · intro hc
      norm_num [analyze_sentiment, hp, hn] at hc
    · intro _ _
      simp [analyze_sentiment, hp, hn]
  · have hposn : 0 < countLexicon positive_keywords (lowerStr text)
        + countLexicon negative_keywords (lowerStr text) := Nat.pos_of_ne_zero h
    have hden : (0:ℚ) < (countLexicon positive_keywords (lowerStr text) : ℚ)
        + (countLexicon negative_keywords (lowerStr text) : ℚ) := by
      rw [← hcast]
      exact_mod_cast hposn
    have hscore : ∀ q : ℚ, q = ((countLexicon positive_keywords (lowerStr text) : ℚ)
          - (countLexicon negative_keywords (lowerStr text) : ℚ))
        / ((countLexicon positive_keywords (lowerStr text) : ℚ)
          + (countLexicon negative_keywords (lowerStr text) : ℚ)) →
        q ≤ 1 ∧ -1 ≤ q := by
      intro q hq
      subst hq
      constructor
      · rw [div_le_one hden]
        have : (0:ℚ) ≤ (countLexicon negative_keywords (lowerStr text) : ℚ) :=
          Nat.cast_nonneg _
        linarith
      · rw [le_div_iff₀ hden]
        have : (0:ℚ) ≤ (countLexicon positive_keywords (lowerStr text) : ℚ) :=
          Nat.cast_nonneg _
        linarith
    simp only [analyze_sentiment, if_neg h, hcast]
    split_ifs with h1 h2
    · obtain ⟨hle, hge⟩ := hscore _ rfl
      refine ⟨fun hc => absurd hc h, fun _ => ⟨rfl, hge, hle⟩, fun _ => rfl, ?_, ?_⟩
      · intro hc
        exact absurd hc (by linarith)
      · intro _ hc
        exact absurd hc (by linarith)
    · obtain ⟨hle, hge⟩ := hscore _ rfl
      refine ⟨fun hc => absurd hc h, fun _ => ⟨rfl, hge, hle⟩, ?_, fun _ => rfl, ?_⟩
      · intro hc
        exact absurd hc (by linarith)
      · intro hc _
        exact absurd hc (by linarith)
    · obtain ⟨hle, hge⟩ := hscore _ rfl
      refine ⟨fun hc => absurd hc h, fun _ => ⟨rfl, hge, hle⟩, ?_, ?_, fun _ _ => rfl⟩
      · intro hc
        exact absurd hc h1
      · intro hc
        exact absurd hc h2

/-- C6, witness: a text with no lexicon matches gets score 0, category
neutral and the fixed explanation. -/
theorem analyze_sentiment_score_category_spec_witness :
    (analyze_sentiment "hello world".toList).score = 0
    ∧ (analyze_sentiment "hello world".toList).sentiment = "neutral".toList
    ∧ (analyze_sentiment "hello world".toList).explanation
        = "No clear sentiment indicators found in the text.".toList :=
  (analyze_sentiment_score_category_spec "hello world".toList).1 (by decide)

lemma collectStep_key {sec : Str} (acc : List Str × List Str)
    (h : keySectionMatch sec = true) :
    collectStep acc sec = (acc.1 ++ sectionLines sec, acc.2) := by
  unfold keySectionMatch at h
  unfold collectStep
  rw [h]
  simp

lemma collectStep_sug {sec : Str} (acc : List Str × List Str)
    (h : keySectionMatch sec = false) (h2 : suggestionSectionMatch sec = true) :
    collectStep acc sec = (acc.1, acc.2 ++ sectionLines sec) := by
  unfold suggestionSectionMatch at h2
  rw [h] at h2
  simp only [Bool.not_false, Bool.true_and] at h2
  unfold keySectionMatch at h
  unfold collectStep
  rw [h, h2]
  simp

lemma collectStep_skip {sec : Str} (acc : List Str × List Str)
    (h : keySectionMatch sec = false) (h2 : suggestionSectionMatch sec = false) :
    collectStep acc sec = acc := by
  unfold suggestionSectionMatch at h2
  rw [h] at h2
  simp only [Bool.not_false, Bool.true_and] at h2
  unfold keySectionMatch at h
  unfold collectStep
  rw [h, h2]
  simp

lemma parse_foldl_collect (sections : List Str) (acc : List Str × List Str) :
    sections.foldl collectStep acc
    = (acc.1 ++ (sections.filter keySectionMatch).flatMap sectionLines,
       acc.2 ++ (sections.filter suggestionSectionMatch).flatMap sectionLines) := by
  induction sections generalizing acc with
  | nil => simp
  | cons sec rest ih =>
    by_cases hk : keySectionMatch sec = true
    · have hs : suggestionSectionMatch sec = false := by
        simp [suggestionSectionMatch, hk]
      simp only [List.foldl_cons, collectStep_key acc hk, ih]
      simp [List.filter_cons, hk, hs, List.append_assoc]
    · simp only [Bool.not_eq_true] at hk
      by_cases hs : suggestionSectionMatch sec = true
      · simp only [List.foldl_cons, collectStep_sug acc hk hs, ih]
        simp [List.filter_cons, hk, hs, List.append_assoc]
      · simp only [Bool.not_eq_true] at hs
        simp only [List.foldl_cons, collectStep_skip acc hk hs, ih]
        simp [List.filter_cons, hk, hs]

/-- C3, counterexample: when the first blank-line-separated section is itself a
key-points section, the parser still uses it as the narrative; the first
non-matching section (here `"Tail."`) is not the narrative. -/
theorem narrative_first_section_counterexample :
    (parseProviderContent "Key points:\n- a\n\nTail.".toList).feedback
      = "Key points:\n- a".toList
    ∧ firstNonMatchingSection "Key points:\n- a\n\nTail.".toList
      = some "Tail.".toList
    ∧ "Key points:\n- a".toList ≠ "Tail.".toList := by
  refine ⟨by decide, by decide, by decide⟩

/-- C3, amended: the parser splits on blank-line-separated sections; the FIRST
section, matching or not, becomes the narrative; a section containing
"key point" (case-insensitive) contributes every non-blank line after its
first line, with `-` and space characters stripped from both ends, to
`key_points`; a section not containing "key point" but containing
"improvement" or "suggestion" contributes its lines likewise to
`suggestions`; empty collections are replaced by fixed defaults, and the
lists are truncated to 5 and 3 items. -/
theorem parse_sections_characterization (content : Str) :
    (parseProviderContent content).feedback = (splitTwoNl content).headD []
    ∧ (parseProviderContent content).key_points
      = (if ((splitTwoNl content).filter keySectionMatch).flatMap sectionLines = []
         then default_key_points
         else ((splitTwoNl content).filter keySectionMatch).flatMap sectionLines).take 5
    ∧ (parseProviderContent content).improvement_suggestions
      = (if ((splitTwoNl content).filter suggestionSectionMatch).flatMap sectionLines = []
         then default_suggestions
         else ((splitTwoNl content).filter suggestionSectionMatch).flatMap sectionLines).take 3 := by
  simp only [parseProviderContent, parse_foldl_collect, List.nil_append]
  simp [List.isEmpty_iff]

lemma containsSub_iff (p l : Str) : containsSub p l = true ↔ p <:+: l := by
  induction l with
  | nil => simp [containsSub, List.isEmpty_iff]
  | cons c rest ih =>
    simp [containsSub, List.infix_cons_iff, ih]

lemma containsSub_refl (p : Str) : containsSub p p = true :=
  (containsSub_iff p p).mpr (List.infix_refl p)

lemma containsSub_append_of_left (p l t : Str) (h : containsSub p l = true) :
    containsSub p (l ++ t) = true := by
  rw [containsSub_iff] at h ⊢
  exact h.trans ⟨[], t, by simp⟩

lemma containsSub_append_of_right (p s l : Str) (h : containsSub p l = true) :
    containsSub p (s ++ l) = true := by
  rw [containsSub_iff] at h ⊢
  exact h.trans ⟨s, [], by simp⟩

lemma performanceSentence_ne_nil (r : ℚ) : performanceSentence r ≠ [] := by
  unfold performanceSentence
  split_ifs <;> intro h <;>
    rw [List.append_eq_nil, List.append_eq_nil] at h <;>
    exact absurd h.1.1 (by decide)

/-- C10: when the performance dict has no `roi` key, the template tier treats
the ROI as 0, appends the underperformance ("negative ROI") sentence, and the
returned narrative ends with the learning-opportunity sentence for ROI 0; the
result is well-formed. -/
theorem template_feedback_missing_roi (asset strategy : Str) (timeframe : ℕ)
    (fc : Option ℚ) :
    performanceSentence ((PerfDict.mk none fc).roi.getD 0)
      = "The strategy resulted in a negative ROI of 0%. This provides a valuable learning opportunity to understand what factors contributed to the underperformance.".toList
    ∧ "The strategy resulted in a negative ROI of 0%. This provides a valuable learning opportunity to understand what factors contributed to the underperformance.".toList
        <:+ (template_feedback asset strategy timeframe ⟨none, fc⟩).feedback
    ∧ (template_feedback asset strategy timeframe ⟨none, fc⟩).feedback ≠ []
    ∧ (template_feedback asset strategy timeframe ⟨none, fc⟩).key_points.length ≤ 5
    ∧ (template_feedback asset strategy timeframe ⟨none, fc⟩).improvement_suggestions.length ≤ 3 := by
  have h15 : ¬ (15:ℚ) < 0 := by decide
  have h00 : ¬ (0:ℚ) < 0 := by decide
  have hsent : performanceSentence 0
      = "The strategy resulted in a negative ROI of 0%. This provides a valuable learning opportunity to understand what factors contributed to the underperformance.".toList := by
    unfold performanceSentence
    rw [if_neg h15, if_neg h00]
    decide
  have hsuf : "The strategy resulted in a negative ROI of 0%. This provides a valuable learning opportunity to understand what factors contributed to the underperformance.".toList
      <:+ (template_feedback asset strategy timeframe ⟨none, fc⟩).feedback := by
    simp only [template_feedback]
    rw [← hsent]
    exact List.suffix_append _ _
  refine ⟨hsent, hsuf, ?_, ?_, ?_⟩
  · intro hnil
    rw [hnil] at hsuf
    obtain ⟨t, ht⟩ := hsuf
    rw [List.append_eq_nil] at ht
    exact absurd ht.2 (by decide)
  · simp only [template_feedback]
    split_ifs <;> exact (by norm_num : (4:ℕ) ≤ 5)
  · simp only [template_feedback]
    split_ifs <;> exact (by norm_num : (3:ℕ) ≤ 3)

lemma template_feedback_wellformed (asset strategy : Str) (timeframe : ℕ) (perf : PerfDict) :
    containsSub asset (template_feedback asset strategy timeframe perf).feedback = true
    ∧ containsSub (strategyDescriptor strategy)
        (template_feedback asset strategy timeframe perf).feedback = true
    ∧ (template_feedback asset strategy timeframe perf).feedback ≠ []
    ∧ (template_feedback asset strategy timeframe perf).key_points.length ≤ 5
    ∧ (template_feedback asset strategy timeframe perf).improvement_suggestions.length ≤ 3 := by
  have hsuf : performanceSentence (perf.roi.getD 0)
      <:+ (template_feedback asset strategy timeframe perf).feedback := by
    simp only [template_feedback]
    exact List.suffix_append _ _
  have hnil : (template_feedback asset strategy timeframe perf).feedback ≠ [] := by
    intro h
    rw [h] at hsuf
    obtain ⟨t, ht⟩ := hsuf
    rw [List.append_eq_nil] at ht
    exact performanceSentence_ne_nil _ ht.2
  have hkp : (template_feedback asset strategy timeframe perf).key_points.length ≤ 5 := by
    simp only [template_feedback]
    split_ifs <;> exact (by norm_num : (4:ℕ) ≤ 5)
  have hsg : (template_feedback asset strategy timeframe perf).improvement_suggestions.length ≤ 3 := by
    simp only [template_feedback]
    split_ifs <;> exact (by norm_num : (3:ℕ) ≤ 3)
  have hcontain : containsSub asset (template_feedback asset strategy timeframe perf).feedback = true
      ∧ containsSub (strategyDescriptor strategy)
          (template_feedback asset strategy timeframe perf).feedback = true := by
    by_cases h1 : strategy = "sma_crossover".toList
    · subst h1
      rw [show strategyDescriptor "sma_crossover".toList
          = "Simple Moving Average (SMA) Crossover".toList from by decide]
      simp only [template_feedback]
      rw [if_pos trivial]
      simp only [smaTemplate]
      constructor
      · exact containsSub_append_of_left _ _ _ (containsSub_append_of_left _ _ _
          (containsSub_append_of_left _ _ _ (containsSub_append_of_left _ _ _
            (containsSub_append_of_left _ _ _
              (containsSub_append_of_right _ _ _ (containsSub_refl asset))))))
      · exact containsSub_append_of_left _ _ _ (containsSub_append_of_left _ _ _
          (containsSub_append_of_left _ _ _ (containsSub_append_of_left _ _ _
            (containsSub_append_of_left _ _ _ (containsSub_append_of_left _ _ _
              (by decide))))))
    · by_cases h2 : strategy = "ema_crossover".toList
      · subst h2
        rw [show strategyDescriptor "ema_crossover".toList
            = "Exponential Moving Average (EMA) Crossover".toList from by decide]
        simp only [template_feedback]
        rw [if_neg (by decide), if_pos trivial]
        simp only [emaTemplate]
        constructor
        · exact containsSub_append_of_left _ _ _ (containsSub_append_of_left _ _ _
            (containsSub_append_of_left _ _ _ (containsSub_append_of_left _ _ _
              (containsSub_append_of_left _ _ _
                (containsSub_append_of_right _ _ _ (containsSub_refl asset))))))
        · exact containsSub_append_of_left _ _ _ (containsSub_append_of_left _ _ _
            (containsSub_append_of_left _ _ _ (containsSub_append_of_left _ _ _
              (containsSub_append_of_left _ _ _ (containsSub_append_of_left _ _ _
                (by decide))))))
      · by_cases h3 : strategy = "macd".toList
        · subst h3
          rw [show strategyDescriptor "macd".toList
              = "Moving Average Convergence Divergence (MACD)".toList from by decide]
          simp only [template_feedback]
          rw [if_neg (by decide), if_neg (by decide), if_pos trivial]
          simp only [macdTemplate]
          constructor
          · exact containsSub_append_of_left _ _ _ (containsSub_append_of_left _ _ _
              (containsSub_append_of_left _ _ _ (containsSub_append_of_left _ _ _
                (containsSub_append_of_left _ _ _
                  (containsSub_append_of_right _ _ _ (containsSub_refl asset))))))
          · exact containsSub_append_of_left _ _ _ (containsSub_append_of_left _ _ _
              (containsSub_append_of_left _ _ _ (containsSub_append_of_left _ _ _
                (containsSub_append_of_left _ _ _ (containsSub_append_of_left _ _ _
                  (by decide))))))
        · by_cases h4 : strategy = "rsi".toList
          · subst h4
            rw [show strategyDescriptor "rsi".toList
                = "Relative Strength Index (RSI)".toList from by decide]
            simp only [template_feedback]
            rw [if_neg (by decide), if_neg (by decide), if_neg (by decide), if_pos trivial]
            simp only [rsiTemplate]
            constructor
            · exact containsSub_append_of_left _ _ _ (containsSub_append_of_left _ _ _
                (containsSub_append_of_left _ _ _ (containsSub_append_of_left _ _ _
                  (containsSub_append_of_left _ _ _
                    (containsSub_append_of_right _ _ _ (containsSub_refl asset))))))
            · exact containsSub_append_of_left _ _ _ (containsSub_append_of_left _ _ _
                (containsSub_append_of_left _ _ _ (containsSub_append_of_left _ _ _
                  (containsSub_append_of_left _ _ _ (containsSub_append_of_left _ _ _
                    (by decide))))))
          · by_cases h5 : strategy = "bollinger".toList
            · subst h5
              rw [show strategyDescriptor "bollinger".toList
                  = "Bollinger Bands".toList from by decide]
              simp only [template_feedback]
              rw [if_neg (by decide), if_neg (by decide), if_neg (by decide),
                if_neg (by decide), if_pos trivial]
              simp only [bollingerTemplate]
              constructor
              · exact containsSub_append_of_left _ _ _ (containsSub_append_of_left _ _ _
                  (containsSub_append_of_left _ _ _ (containsSub_append_of_left _ _ _
                    (containsSub_append_of_left _ _ _
                      (containsSub_append_of_right _ _ _ (containsSub_refl asset))))))
              · exact containsSub_append_of_left _ _ _ (containsSub_append_of_left _ _ _
                  (containsSub_append_of_left _ _ _ (containsSub_append_of_left _ _ _
                    (containsSub_append_of_left _ _ _ (containsSub_append_of_left _ _ _
                      (by decide))))))
            · have hd : strategyDescriptor strategy = strategy := by
                unfold strategyDescriptor
                rw [if_neg h1, if_neg h2, if_neg h3, if_neg h4, if_neg h5]
              have hdn : strategyDisplayName strategy = strategy := by
                unfold strategyDisplayName
                rw [if_neg h1, if_neg h2, if_neg h3, if_neg h4, if_neg h5]
              rw [hd]
              simp only [template_feedback]
              rw [if_neg h1, if_neg h2, if_neg h3, if_neg h4, if_neg h5]
              simp only [genericTemplate]
              rw [hdn]
              constructor
              · exact containsSub_append_of_left _ _ _ (containsSub_append_of_left _ _ _
                  (containsSub_append_of_left _ _ _ (containsSub_append_of_left _ _ _
                    (containsSub_append_of_left _ _ _ (containsSub_append_of_left _ _ _
                      (containsSub_append_of_left _ _ _
                        (containsSub_append_of_right _ _ _ (containsSub_refl asset))))))))
              · exact containsSub_append_of_left _ _ _ (containsSub_append_of_left _ _ _
                  (containsSub_append_of_left _ _ _ (containsSub_append_of_left _ _ _
                    (containsSub_append_of_left _ _ _ (containsSub_append_of_left _ _ _
                      (containsSub_append_of_left _ _ _ (containsSub_append_of_left _ _ _
                        (containsSub_append_of_left _ _ _
                          (containsSub_append_of_right _ _ _ (containsSub_refl strategy))))))))))
  exact ⟨hcontain.1, hcontain.2, hnil, hkp, hsg⟩

/-- C4: when both providers are unconfigured or their calls fail, the feedback
generator returns the template-tier result, with at most 5 key points, at most
3 suggestions, and a non-empty narrative containing the asset and the
strategy's identifying phrase; this holds for every strategy, including ones
absent from the template bank, and the function is total, so no exception
reaches the caller. -/
theorem feedback_fallback_template_bounds
    (dsConfigured oaConfigured : Bool) (dsResult oaResult : Except Unit Str)
    (asset strategy : Str) (timeframe : ℕ) (perf : PerfDict)
    (hds : dsConfigured = false ∨ dsResult = .error ())
    (hoa : oaConfigured = false ∨ oaResult = .error ()) :
    get_educational_feedback dsConfigured oaConfigured dsResult oaResult
        asset strategy timeframe perf
      = template_feedback asset strategy timeframe perf
    ∧ (get_educational_feedback dsConfigured oaConfigured dsResult oaResult
        asset strategy timeframe perf).key_points.length ≤ 5
    ∧ (get_educational_feedback dsConfigured oaConfigured dsResult oaResult
        asset strategy timeframe perf).improvement_suggestions.length ≤ 3
    ∧ (get_educational_feedback dsConfigured oaConfigured dsResult oaResult
        asset strategy timeframe perf).feedback ≠ []
    ∧ containsSub asset (get_educational_feedback dsConfigured oaConfigured dsResult oaResult
        asset strategy timeframe perf).feedback = true
    ∧ containsSub (strategyDescriptor strategy)
        (get_educational_feedback dsConfigured oaConfigured dsResult oaResult
          asset strategy timeframe perf).feedback = true := by
  have heq : get_educational_feedback dsConfigured oaConfigured dsResult oaResult
      asset strategy timeframe perf = template_feedback asset strategy timeframe perf := by
    rcases hds with h | h <;> rcases hoa with h2 | h2 <;> subst h <;> subst h2 <;>
      simp [get_educational_feedback]
  obtain ⟨hc1, hc2, hc3, hc4, hc5⟩ := template_feedback_wellformed asset strategy timeframe perf
  rw [heq]
  exact ⟨rfl, hc4, hc5, hc3, hc1, hc2⟩

/-- C4, witness: with both providers unconfigured, a concrete call lands in
the template tier and satisfies the bounds. -/
theorem feedback_fallback_template_bounds_witness :
    ((false = false ∨ (Except.error () : Except Unit Str) = .error ())
      ∧ (false = false ∨ (Except.error () : Except Unit Str) = .error ()))
    ∧ (get_educational_feedback false false (.error ()) (.error ())
          "BTC".toList "sma_crossover".toList 30 ⟨some 12, some 11200⟩
        = template_feedback "BTC".toList "sma_crossover".toList 30 ⟨some 12, some 11200⟩
      ∧ (get_educational_feedback false false (.error ()) (.error ())
          "BTC".toList "sma_crossover".toList 30 ⟨some 12, some 11200⟩).key_points.length ≤ 5
      ∧ (get_educational_feedback false false (.error ()) (.error ())
          "BTC".toList "sma_crossover".toList 30 ⟨some 12, some 11200⟩).improvement_suggestions.length ≤ 3
      ∧ (get_educational_feedback false false (.error ()) (.error ())
          "BTC".toList "sma_crossover".toList 30 ⟨some 12, some 11200⟩).feedback ≠ []
      ∧ containsSub "BTC".toList (get_educational_feedback false false (.error ()) (.error ())
          "BTC".toList "sma_crossover".toList 30 ⟨some 12, some 11200⟩).feedback = true
      ∧ containsSub (strategyDescriptor "sma_crossover".toList)
          (get_educational_feedback false false (.error ()) (.error ())
            "BTC".toList "sma_crossover".toList 30 ⟨some 12, some 11200⟩).feedback = true) :=
  ⟨⟨Or.inl rfl, Or.inl rfl⟩,
    feedback_fallback_template_bounds false false (.error ()) (.error ())
      "BTC".toList "sma_crossover".toList 30 ⟨some 12, some 11200⟩
      (Or.inl rfl) (Or.inl rfl)⟩

/-- C7: a series shorter than the window yields all-zero scores of the same
length, an empty anomaly list, and threshold 3.0. -/
theorem detect_anomalies_short_series (data : List ℝ) (window_size : ℕ)
    (hw : 0 < window_size) (h : data.length < window_size) :
    detect_anomalies data window_size
      = { anomalies := [], scores := List.replicate data.length 0, threshold := 3 } := by
  simp [detect_anomalies, h]

/-- C7, witness: a 2-element series with window 3. -/
theorem detect_anomalies_short_series_witness :
    (0 < 3 ∧ [(1:ℝ), 2].length < 3)
    ∧ detect_anomalies [(1:ℝ), 2] 3
      = { anomalies := [], scores := List.replicate 2 0, threshold := 3 } :=
  ⟨⟨by decide, by decide⟩,
    detect_anomalies_short_series [(1:ℝ), 2] 3 (by decide) (by decide)⟩

lemma detect_scores_getD (data : List ℝ) (w : ℕ) (h : ¬ data.length < w)
    (i : ℕ) (hi : i < data.length) :
    (detect_anomalies data w).scores.getD i 0 = rollingScore data w i := by
  simp only [detect_anomalies, if_neg h]
  rw [List.getD_eq_getElem?_getD, List.getElem?_map, List.getElem?_range hi]
  rfl

lemma detect_anomalies_mem (data : List ℝ) (w : ℕ) (h : ¬ data.length < w) (i : ℕ) :
    i ∈ (detect_anomalies data w).anomalies
      ↔ i < data.length ∧ 3 < rollingScore data w i := by
  simp only [detect_anomalies, if_neg h]
  rw [List.mem_filter, List.mem_range]
  simp

/-- C5: on a series at least as long as the window, scores have the series'
length; indices before the window and indices whose trailing window has zero
population standard deviation score 0; every other index scores
`|x - mean| / std` over the `window_size` points strictly before it; an index
is an anomaly exactly when its score exceeds 3.0, anomalies are ascending and
in range, and the threshold is 3.0. -/
theorem detect_anomalies_scores_spec (data : List ℝ) (window_size : ℕ)
    (hw : 0 < window_size) (hlen : window_size ≤ data.length) :
    (detect_anomalies data window_size).scores.length = data.length
    ∧ (∀ i, i < window_size →
        (detect_anomalies data window_size).scores.getD i 0 = 0)
    ∧ (∀ i, window_size ≤ i → i < data.length →
        (listStd ((data.drop (i - window_size)).take window_size) = 0 →
          (detect_anomalies data window_size).scores.getD i 0 = 0)
        ∧ (listStd ((data.drop (i - window_size)).take window_size) ≠ 0 →
          (detect_anomalies data window_size).scores.getD i 0
            = |data.getD i 0 - listMean ((data.drop (i - window_size)).take window_size)|
              / listStd ((data.drop (i - window_size)).take window_size)))
    ∧ (∀ i, i < data.length →
        (i ∈ (detect_anomalies data window_size).anomalies
          ↔ 3 < (detect_anomalies data window_size).scores.getD i 0))
    ∧ (∀ i, i ∈ (detect_anomalies data window_size).anomalies → i < data.length)
    ∧ (detect_anomalies data window_size).anomalies.Pairwise (· < ·)
    ∧ (detect_anomalies data window_size).threshold = 3 := by
  have hnl : ¬ data.length < window_size := not_lt.mpr hlen
  refine ⟨?_, ?_, ?_, ?_, ?_, ?_, ?_⟩
  · simp [detect_anomalies, if_neg hnl]
  · intro i hi
    rw [detect_scores_getD data window_size hnl i (lt_of_lt_of_le hi hlen)]
    simp [rollingScore, hi]
  · intro i hwi hil
    constructor
    · intro hstd
      rw [detect_scores_getD data window_size hnl i hil]
      unfold rollingScore
      rw [if_neg (not_lt.mpr hwi)]
      simp only []
      rw [if_pos hstd]
    · intro hstd
      rw [detect_scores_getD data window_size hnl i hil]
      unfold rollingScore
      rw [if_neg (not_lt.mpr hwi)]
      simp only []
      rw [if_neg hstd]
  · intro i hi
    rw [detect_anomalies_mem data window_size hnl i,
      detect_scores_getD data window_size hnl i hi]
    exact ⟨fun h => h.2, fun h => ⟨hi, h⟩⟩
  · intro i hmem
    exact ((detect_anomalies_mem data window_size hnl i).mp hmem).1
  · simp only [detect_anomalies, if_neg hnl]
    exact List.Pairwise.filter _ (List.pairwise_lt_range _)
  · simp [detect_anomalies, if_neg hnl]

/-- C5, witness: a concrete 3-point series with window 2. -/
theorem detect_anomalies_scores_spec_witness :
    (0 < 2 ∧ 2 ≤ [(0:ℝ), 2, 4].length)
    ∧ (detect_anomalies [(0:ℝ), 2, 4] 2).scores.length = [(0:ℝ), 2, 4].length :=
  ⟨⟨by decide, by decide⟩,
    (detect_anomalies_scores_spec [(0:ℝ), 2, 4] 2 (by decide) (by decide)).1⟩

lemma genData_fst (start vol : ℚ) (u : ℕ → ℚ) (n : ℕ) :
    (genData start vol u n).1 = curPrice start vol u n := by
  induction n with
  | zero => rfl
  | succ n ih =>
    simp only [genData, curPrice]
    rw [ih]

lemma genData_length (start vol : ℚ) (u : ℕ → ℚ) (n : ℕ) :
    (genData start vol u n).2.length = n := by
  induction n with
  | zero => rfl
  | succ n ih =>
    simp only [genData]
    simp [ih]

lemma genData_getD (start vol : ℚ) (u : ℕ → ℚ) (n : ℕ) :
    ∀ i, i < n → (genData start vol u n).2.getD i default = pointAt start vol u i := by
  induction n with
  | zero => intro i hi; exact absurd hi (Nat.not_lt_zero i)
  | succ n ih =>
    intro i hi
    simp only [genData]
    rcases Nat.lt_succ_iff_lt_or_eq.mp hi with hlt | heq
    · rw [List.getD_append _ _ _ _ (by rw [genData_length]; exact hlt)]
      exact ih i hlt
    · subst heq
      have hlen : (genData start vol u i).2.length = i := genData_length start vol u i
      rw [List.getD_append_right _ _ _ _ (le_of_eq hlen)]
      rw [hlen, Nat.sub_self]
      simp only [List.getD_cons_zero]
      unfold pointAt
      have hprice : round2 (stepPrice vol (genData start vol u i).1 (u i))
          = recordedPrice start vol u i := by
        rw [genData_fst]
        rfl
      have hwin : ∀ (a b : ℕ), a + b ≤ i →
          (List.range' a b).map (fun j => ((genData start vol u i).2.getD j default).price)
            = (List.range' a b).map (recordedPrice start vol u) := by
        intro a b hab
        apply List.map_congr_left
        intro j hj
        have hji : j < i := by
          have := List.mem_range'_1.mp hj
          omega
        rw [ih j hji]
        rfl
      by_cases h19 : 19 ≤ i
      · by_cases h9 : 9 ≤ i
        · rw [if_pos h19, if_pos h19, if_pos h9, if_pos h9, hprice,
            hwin (i - 19) 19 (by omega), hwin (i - 9) 9 (by omega)]
        · omega
      · by_cases h9 : 9 ≤ i
        · rw [if_neg h19, if_neg h19, if_pos h9, if_pos h9, hprice,
            hwin (i - 9) 9 (by omega)]
        · rw [if_neg h19, if_neg h19, if_neg h9, if_neg h9, hprice]

lemma curPrice_succ_ge (start vol : ℚ) (u : ℕ → ℚ) (i : ℕ) :
    1/10 ≤ curPrice start vol u (i + 1) :=
  le_max_right _ _

lemma roundHalfEven_ge_floor (x : ℚ) : ⌊x⌋ ≤ roundHalfEven x := by
  unfold roundHalfEven
  split_ifs <;> omega

lemma round2_pos (x : ℚ) (h : 1/10 ≤ x) : 0 < round2 x := by
  unfold round2
  have h1 : (10:ℤ) ≤ ⌊x * 100⌋ := by
    rw [Int.le_floor]
    push_cast
    linarith
  have h2 : (10:ℤ) ≤ roundHalfEven (x * 100) := le_trans h1 (roundHalfEven_ge_floor _)
  have h3 : (10:ℚ) ≤ (roundHalfEven (x * 100) : ℚ) := by exact_mod_cast h2
  have : (0:ℚ) < (roundHalfEven (x * 100) : ℚ) := by linarith
  exact div_pos this (by norm_num)

lemma recordedPrice_pos (start vol : ℚ) (u : ℕ → ℚ) (i : ℕ) :
    0 < recordedPrice start vol u i :=
  round2_pos _ (curPrice_succ_ge start vol u i)

/-- C8: the generated series has exactly `timeframe` points, days `1..timeframe`
increasing by 1, the SMA window present exactly when `day ≥ 20`, the EMA window
present exactly when `day ≥ 10`, and every recorded price strictly positive. -/
theorem generate_mock_data_series_shape (simId createdAt asset strategy : Str)
    (timeframe : ℕ) (capital : ℚ) (u : ℕ → ℚ) (v : Str → ℚ) (ht : 0 < timeframe) :
    (generate_mock_data simId createdAt asset strategy timeframe capital u v).data.length
      = timeframe
    ∧ (∀ i, i < timeframe →
        ((generate_mock_data simId createdAt asset strategy timeframe capital u v).data.getD
          i default).day = i + 1)
    ∧ (∀ i, i < timeframe →
        (((generate_mock_data simId createdAt asset strategy timeframe capital u v).data.getD
            i default).sma20.isSome = true
          ↔ 20 ≤ ((generate_mock_data simId createdAt asset strategy timeframe capital u v).data.getD
              i default).day))
    ∧ (∀ i, i < timeframe →
        (((generate_mock_data simId createdAt asset strategy timeframe capital u v).data.getD
            i default).ema10.isSome = true
          ↔ 10 ≤ ((generate_mock_data simId createdAt asset strategy timeframe capital u v).data.getD
              i default).day))
    ∧ (∀ i, i < timeframe →
        0 < ((generate_mock_data simId createdAt asset strategy timeframe capital u v).data.getD
          i default).price) := by
  have hser : ∀ j, j < timeframe →
      (generate_mock_data simId createdAt asset strategy timeframe capital u v).data.getD j default
        = pointAt (assetParams asset).1 (assetParams asset).2 u j := by
    intro j hj
    exact genData_getD (assetParams asset).1 (assetParams asset).2 u timeframe j hj
  refine ⟨genData_length _ _ _ _, ?_, ?_, ?_, ?_⟩
  · intro i hi
    rw [hser i hi]
    rfl
  · intro i hi
    rw [hser i hi]
    simp only [pointAt]
    split_ifs with h <;> simp <;> omega
  · intro i hi
    rw [hser i hi]
    simp only [pointAt]
    split_ifs with h <;> simp <;> omega
  · intro i hi
    rw [hser i hi]
    exact recordedPrice_pos _ _ _ _

/-- C8, witness: a concrete 30-day run. -/
theorem generate_mock_data_series_shape_witness :
    0 < 30
    ∧ (generate_mock_data [] [] "BTC".toList "sma_crossover".toList 30 10000 uCE vCE).data.length
        = 30 :=
  ⟨by decide,
    (generate_mock_data_series_shape [] [] "BTC".toList "sma_crossover".toList 30 10000 uCE vCE
      (by decide)).1⟩

/-- C2, amended: at a point with `day ≥ 20` the stored SMA value is the sum of
the 19 recorded prices strictly preceding the point divided by 20 (not a mean
of 20 prices); at `day ≥ 10` the stored EMA value is the sum of the 9
preceding recorded prices divided by 10; each rounded to 2 decimal places. -/
theorem sma_ema_windows_trailing_sums (simId createdAt asset strategy : Str)
    (timeframe : ℕ) (capital : ℚ) (u : ℕ → ℚ) (v : Str → ℚ) :
    (∀ i, i < timeframe → 19 ≤ i →
      ((generate_mock_data simId createdAt asset strategy timeframe capital u v).data.getD
          i default).sma20
        = some (round2 ((((List.range' (i - 19) 19).map fun j =>
            ((generate_mock_data simId createdAt asset strategy timeframe capital u v).data.getD
              j default).price).sum) / 20)))
    ∧ (∀ i, i < timeframe → 9 ≤ i →
      ((generate_mock_data simId createdAt asset strategy timeframe capital u v).data.getD
          i default).ema10
        = some (round2 ((((List.range' (i - 9) 9).map fun j =>
            ((generate_mock_data simId createdAt asset strategy timeframe capital u v).data.getD
              j default).price).sum) / 10))) := by
  have hser : ∀ j, j < timeframe →
      (generate_mock_data simId createdAt asset strategy timeframe capital u v).data.getD j default
        = pointAt (assetParams asset).1 (assetParams asset).2 u j := by
    intro j hj
    exact genData_getD (assetParams asset).1 (assetParams asset).2 u timeframe j hj
  have hmap : ∀ (a b : ℕ), a + b ≤ timeframe →
      (List.range' a b).map (fun j =>
        ((generate_mock_data simId createdAt asset strategy timeframe capital u v).data.getD
          j default).price)
      = (List.range' a b).map (recordedPrice (assetParams asset).1 (assetParams asset).2 u) := by
    intro a b hab
    apply List.map_congr_left
    intro j hj
    have hj' : j < timeframe := by
      have := List.mem_range'_1.mp hj
      omega
    rw [hser j hj']
    rfl
  constructor
  · intro i hi h19
    rw [hser i hi, hmap (i - 19) 19 (by omega)]
    simp only [pointAt]
    rw [if_pos h19]
  · intro i hi h9
    rw [hser i hi, hmap (i - 9) 9 (by omega)]
    simp only [pointAt]
    rw [if_pos h9]

/-- C2 (amended), witness: in a concrete 21-day run, a day-21 point carries
the stored SMA formula. -/
theorem sma_ema_windows_trailing_sums_witness :
    (20 < 21 ∧ 19 ≤ 20)
    ∧ ((generate_mock_data [] [] "AAPL".toList "macd".toList 21 10000 uCE vCE).data.getD
          20 default).sma20
      = some (round2 ((((List.range' 1 19).map fun j =>
          ((generate_mock_data [] [] "AAPL".toList "macd".toList 21 10000 uCE vCE).data.getD
            j default).price).sum) / 20)) :=
  ⟨⟨by decide, by decide⟩,
    (sma_ema_windows_trailing_sums [] [] "AAPL".toList "macd".toList 21 10000 uCE vCE).1
      20 (by decide) (by decide)⟩

lemma roundHalfEven_intCast (m : ℤ) : roundHalfEven (m : ℚ) = m := by
  unfold roundHalfEven
  rw [Int.fract_intCast, if_pos (by norm_num), Int.floor_intCast]

lemma round2_of_mul_int (x : ℚ) (m : ℤ) (h : x * 100 = (m : ℚ)) :
    round2 x = (m : ℚ) / 100 := by
  unfold round2
  rw [h, roundHalfEven_intCast]

lemma curPriceCE_one : curPrice 100 (2/100) uCE 1 = 100 := by
  show stepPrice (2/100) (curPrice 100 (2/100) uCE 0) (uCE 0) = 100
  show stepPrice (2/100) 100 (uCE 0) = 100
  unfold stepPrice uCE
  norm_num

lemma curPriceCE_ge_two : ∀ k, 2 ≤ k → curPrice 100 (2/100) uCE k = 101 := by
  intro k hk
  induction k with
  | zero => omega
  | succ n ih =>
    rcases Nat.lt_or_ge n 2 with h | h
    · have hn : n = 1 := by omega
      subst hn
      show stepPrice (2/100) (curPrice 100 (2/100) uCE 1) (uCE 1) = 101
      rw [curPriceCE_one]
      unfold stepPrice uCE
      norm_num
    · show stepPrice (2/100) (curPrice 100 (2/100) uCE n) (uCE n) = 101
      rw [ih h]
      unfold stepPrice uCE
      rw [if_neg (by omega : ¬ n = 1)]
      norm_num

lemma recordedPriceCE_zero : recordedPrice 100 (2/100) uCE 0 = 100 := by
  unfold recordedPrice
  rw [curPriceCE_one, round2_of_mul_int _ 10000 (by norm_num)]
  norm_num

lemma recordedPriceCE_pos : ∀ j, 1 ≤ j → recordedPrice 100 (2/100) uCE j = 101 := by
  intro j hj
  unfold recordedPrice
  rw [curPriceCE_ge_two (j + 1) (by omega), round2_of_mul_int _ 10100 (by norm_num)]
  norm_num

lemma recordedPriceCE_sum (b : ℕ) :
    ((List.range' 1 b).map (recordedPrice 100 (2/100) uCE)).sum = (b : ℚ) * 101 := by
  have hconst : (List.range' 1 b).map (recordedPrice 100 (2/100) uCE)
      = (List.range' 1 b).map (fun _ => (101:ℚ)) := by
    apply List.map_congr_left
    intro j hj
    have hj1 : 1 ≤ j := (List.mem_range'_1.mp hj).1
    exact recordedPriceCE_pos j hj1
  rw [hconst, List.map_const', List.length_range', List.sum_replicate]
  simp [nsmul_eq_mul]

/-- C2, counterexample: in a concrete 21-day run, the recorded SMA at day 21
is not the rounded mean of the 20 prices strictly preceding that point, and
the recorded EMA at day 11 is not the rounded mean of the 10 preceding
prices: the code sums only 19 (resp. 9) prices yet divides by 20 (resp. 10). -/
theorem sma_window_twenty_mean_counterexample :
    (seriesCE.getD 20 default).sma20
        ≠ some (round2 ((((List.range' 0 20).map fun j =>
            (seriesCE.getD j default).price).sum) / 20))
    ∧ (seriesCE.getD 10 default).ema10
        ≠ some (round2 ((((List.range' 0 10).map fun j =>
            (seriesCE.getD j default).price).sum) / 10)) := by
  have hser : ∀ j, j < 21 → seriesCE.getD j default = pointAt 100 (2/100) uCE j := by
    intro j hj
    exact genData_getD 100 (2/100) uCE 21 j hj
  have hprice : ∀ j, j < 21 →
      (seriesCE.getD j default).price = recordedPrice 100 (2/100) uCE j := by
    intro j hj
    rw [hser j hj]
    rfl
  constructor
  · rw [hser 20 (by norm_num)]
    simp only [pointAt]
    rw [if_pos (by norm_num : 19 ≤ 20)]
    rw [show (20:ℕ) - 19 = 1 from rfl]
    rw [recordedPriceCE_sum 19]
    have hmapr : (List.range' 0 20).map (fun j => (seriesCE.getD j default).price)
        = (List.range' 0 20).map (recordedPrice 100 (2/100) uCE) := by
      apply List.map_congr_left
      intro j hj
      have hj21 : j < 21 := by
        have := List.mem_range'_1.mp hj
        omega
      exact hprice j hj21
    rw [hmapr]
    rw [show List.range' 0 20 = 0 :: List.range' 1 19 from rfl]
    rw [List.map_cons, List.sum_cons, recordedPriceCE_zero, recordedPriceCE_sum 19]
    rw [round2_of_mul_int _ 9595 (by norm_num), round2_of_mul_int _ 10095 (by norm_num)]
    simp only [Ne, Option.some.injEq]
    norm_num
  · rw [hser 10 (by norm_num)]
    simp only [pointAt]
    rw [if_pos (by norm_num : 9 ≤ 10)]
    rw [show (10:ℕ) - 9 = 1 from rfl]
    rw [recordedPriceCE_sum 9]
    have hmapr : (List.range' 0 10).map (fun j => (seriesCE.getD j default).price)
        = (List.range' 0 10).map (recordedPrice 100 (2/100) uCE) := by
      apply List.map_congr_left
      intro j hj
      have hj21 : j < 21 := by
        have := List.mem_range'_1.mp hj
        omega
      exact hprice j hj21
    rw [hmapr]
    rw [show List.range' 0 10 = 0 :: List.range' 1 9 from rfl]
    rw [List.map_cons, List.sum_cons, recordedPriceCE_zero, recordedPriceCE_sum 9]
    rw [round2_of_mul_int _ 9090 (by norm_num), round2_of_mul_int _ 10090 (by norm_num)]
    simp only [Ne, Option.some.injEq]
    norm_num

/-- C9: the final performance is the strategy-keyed uniform draw
`lo + (hi - lo) * x` bounded by the strategy's range when the unit draw lies
in `[0, 1]`; a strategy outside the table gets the fixed default 0.1; and the
result satisfies `final_capital = round(initial_capital * (1 + performance), 2)`
and `roi = round(performance * 100, 2)` for that same performance value. -/
theorem performance_draw_and_capital_formulas (simId createdAt asset strategy : Str)
    (timeframe : ℕ) (capital : ℚ) (u : ℕ → ℚ) (v : Str → ℚ)
    (h0 : 0 ≤ v strategy) (h1 : v strategy ≤ 1) :
    (generate_mock_data simId createdAt asset strategy timeframe capital u v).final_capital
      = round2 (capital * (1 + performanceOf v strategy))
    ∧ (generate_mock_data simId createdAt asset strategy timeframe capital u v).roi
      = round2 (performanceOf v strategy * 100)
    ∧ (∀ a b, (strategy, a, b) ∈ strategyRanges →
        performanceOf v strategy = uniformDraw a b (v strategy)
        ∧ a ≤ performanceOf v strategy ∧ performanceOf v strategy ≤ b)
    ∧ ((∀ a b, (strategy, a, b) ∉ strategyRanges) → performanceOf v strategy = 1/10) := by
  refine ⟨rfl, rfl, ?_, ?_⟩
  · intro a b hmem
    unfold strategyRanges at hmem
    rw [List.mem_cons, List.mem_cons, List.mem_cons, List.mem_cons, List.mem_cons] at hmem
    rcases hmem with h | h | h | h | h | h
    · injection h with hs hab
      injection hab with ha hb
      subst hs
      subst ha
      subst hb
      have hperf : performanceOf v ("sma_crossover".toList)
          = uniformDraw (-1/10) (3/10) (v ("sma_crossover".toList)) := rfl
      refine ⟨hperf, ?_, ?_⟩ <;> rw [hperf] <;> unfold uniformDraw <;> nlinarith [h0, h1]
    · injection h with hs hab
      injection hab with ha hb
      subst hs
      subst ha
      subst hb
      have hperf : performanceOf v ("ema_crossover".toList)
          = uniformDraw (-1/20) (1/4) (v ("ema_crossover".toList)) := rfl
      refine ⟨hperf, ?_, ?_⟩ <;> rw [hperf] <;> unfold uniformDraw <;> nlinarith [h0, h1]
    · injection h with hs hab
      injection hab with ha hb
      subst hs
      subst ha
      subst hb
      have hperf : performanceOf v ("macd".toList)
          = uniformDraw (-3/20) (7/20) (v ("macd".toList)) := rfl
      refine ⟨hperf, ?_, ?_⟩ <;> rw [hperf] <;> unfold uniformDraw <;> nlinarith [h0, h1]
    · injection h with hs hab
      injection hab with ha hb
      subst hs
      subst ha
      subst hb
      have hperf : performanceOf v ("rsi".toList)
          = uniformDraw (-1/5) (2/5) (v ("rsi".toList)) := rfl
      refine ⟨hperf, ?_, ?_⟩ <;> rw [hperf] <;> unfold uniformDraw <;> nlinarith [h0, h1]
    · injection h with hs hab
      injection hab with ha hb
      subst hs
      subst ha
      subst hb
      have hperf : performanceOf v ("bollinger".toList)
          = uniformDraw (-1/10) (3/10) (v ("bollinger".toList)) := rfl
      refine ⟨hperf, ?_, ?_⟩ <;> rw [hperf] <;> unfold uniformDraw <;> nlinarith [h0, h1]
    · exact absurd h (List.not_mem_nil _)
  · intro hnone
    have hs1 : strategy ≠ "sma_crossover".toList := by
      intro he
      exact hnone (-1/10) (3/10) (by rw [he]; exact List.mem_cons_self _ _)
    have hs2 : strategy ≠ "ema_crossover".toList := by
      intro he
      refine hnone (-1/20) (1/4) ?_
      rw [he]
      exact List.mem_cons_of_mem _ (List.mem_cons_self _ _)
    have hs3 : strategy ≠ "macd".toList := by
      intro he
      refine hnone (-3/20) (7/20) ?_
      rw [he]
      exact List.mem_cons_of_mem _ (List.mem_cons_of_mem _ (List.mem_cons_self _ _))
    have hs4 : strategy ≠ "rsi".toList := by
      intro he
      refine hnone (-1/5) (2/5) ?_
      rw [he]
      exact List.mem_cons_of_mem _ (List.mem_cons_of_mem _
        (List.mem_cons_of_mem _ (List.mem_cons_self _ _)))
    have hs5 : strategy ≠ "bollinger".toList := by
      intro he
      refine hnone (-1/10) (3/10) ?_
      rw [he]
      exact List.mem_cons_of_mem _ (List.mem_cons_of_mem _
        (List.mem_cons_of_mem _ (List.mem_cons_of_mem _ (List.mem_cons_self _ _))))
    have hl : (strategy_performance v).lookup strategy = none := by
      rw [List.lookup_eq_none_iff]
      intro p hp
      unfold strategy_performance at hp
      rw [List.mem_cons, List.mem_cons, List.mem_cons, List.mem_cons, List.mem_cons] at hp
      rcases hp with h | h | h | h | h | h
      · subst h
        exact bne_iff_ne.mpr hs1
      · subst h
        exact bne_iff_ne.mpr hs2
      · subst h
        exact bne_iff_ne.mpr hs3
      · subst h
        exact bne_iff_ne.mpr hs4
      · subst h
        exact bne_iff_ne.mpr hs5
      · exact absurd h (List.not_mem_nil _)
    unfold performanceOf
    rw [hl]
    rfl

/-- C9, witness: the `rsi` strategy with the degenerate draw 0 lies at the low
end of its range. -/
theorem performance_draw_and_capital_formulas_witness :
    (0 ≤ vZero "rsi".toList ∧ vZero "rsi".toList ≤ 1)
    ∧ performanceOf vZero "rsi".toList = uniformDraw (-1/5) (2/5) (vZero "rsi".toList)
    ∧ -1/5 ≤ performanceOf vZero "rsi".toList
    ∧ performanceOf vZero "rsi".toList ≤ 2/5 :=
  ⟨⟨le_refl 0, zero_le_one⟩,
    (performance_draw_and_capital_formulas [] [] [] "rsi".toList 1 1 uCE vZero
      (le_refl 0) zero_le_one).2.2.1 (-1/5) (2/5)
      (List.mem_cons_of_mem _ (List.mem_cons_of_mem _
        (List.mem_cons_of_mem _ (List.mem_cons_self _ _))))⟩
